import Mathlib

/-!
Shallow embedding of the GitHub webhook intake layer of invenio-github
(`invenio_github/receivers.py`): event classification, the admission
procedure with its in-process lock, the release-record store interaction,
and the mapping of failures to response codes.

Python exceptions are modelled with `Except GHError`; the module-level
mutable environment (the lock dict `state`, the database session/store, the
repository registry, the configuration and the dispatch side effects) is
threaded explicitly as a `World` value.  Mutations performed before an
exception is raised persist, exactly as in the source.
-/

namespace InvenioGithub

/-- Release status enumeration (`ReleaseStatus` in the source); the intake
layer only ever writes `RECEIVED`. -/
inductive ReleaseStatus where
  | RECEIVED
  | PROCESSING
  | PROCESSED
  | ERROR
deriving DecidableEq, Repr

/-- The `release` object of the inbound payload.  Each field is optional:
an absent key raises `KeyError` on subscript access and yields `None` on
`.get` access, as in Python. -/
structure ReleaseInfo where
  id : Option Nat
  tag_name : Option String
  draft : Option Bool
deriving DecidableEq, Repr

/-- The `repository` object of the inbound payload. -/
structure RepoInfo where
  id : Option Nat
  name : Option String
deriving DecidableEq, Repr

/-- The inbound payload document: `action`, `release`, `repository`. -/
structure Payload where
  action : Option String
  release : Option ReleaseInfo
  repository : Option RepoInfo
deriving DecidableEq, Repr

/-- A response written onto the event: a status/message dict. -/
structure Resp where
  status : Nat
  message : String
deriving DecidableEq, Repr

/-- A notification event: immutable payload plus the mutable response slot
(`event.response` and `event.response_code`), both initially unset. -/
structure Event where
  payload : Payload
  response : Option Resp
  response_code : Option Nat
deriving DecidableEq, Repr

/-- A release record as created by the intake layer (`Release` model):
external release id, tag, owning repository and status. -/
structure ReleaseRecord where
  release_id : Nat
  tag : String
  repository_id : Nat
  status : ReleaseStatus
deriving DecidableEq, Repr

/-- A repository registry record: id, name and the enabled gate. -/
structure Repository where
  id : Nat
  name : String
  enabled : Bool
deriving DecidableEq, Repr

/-- The Python exceptions reaching `_handle_create_release` and `run`:
the classified error classes of `invenio_github.errors`, SQLAlchemy
commit errors, and `KeyError` for a missing payload key (unclassified). -/
inductive GHError where
  | releaseAlreadyReceived
  | repositoryDisabled
  | sqlAlchemyError
  | repositoryAccess
  | invalidSender
  | repositoryNotFound
  | keyError (key : String)
deriving DecidableEq, Repr

/-- Observable dispatch steps, recorded in order of occurrence: a durable
commit of the session, an enqueue of a release id onto the asynchronous
task channel (`process_release.delay`), or a synchronous in-line
processing call. -/
inductive Action where
  | commit
  | enqueue (id : Nat)
  | procSync (id : Nat)
deriving DecidableEq, Repr

/-- The mutable environment threaded through the handlers:
`state` is the module-level Admission Lock dict (only key membership is
ever read, so it is modelled by its key list); `store` the committed
release records; `staged` the session adds pending commit; `repos` the
repository registry; `asyncModeConfig` the configured value of the
`GITHUB_ASYNC_MODE` flag (`none` when unset); `commitRaces` injects a
storage uniqueness violation from a concurrent transaction; `enqueued`
the ids handed to the asynchronous task channel; `queries` counts store
point lookups; `actions` the dispatch trace. -/
structure World where
  state : List Nat
  store : List ReleaseRecord
  staged : List ReleaseRecord
  repos : List Repository
  asyncModeConfig : Option Bool
  commitRaces : Bool
  enqueued : List Nat
  queries : Nat
  actions : List Action
deriving DecidableEq, Repr

/-- Python subscript lookup of the release id:
event.payload["release"]["id"], raising KeyError on a missing key. -/
def getReleaseId (p : Payload) : Except GHError Nat :=
  match p.release with
  | none => .error (.keyError "release")
  | some r =>
    match r.id with
    | none => .error (.keyError "id")
    | some i => .ok i

/-- Python subscript lookup event.payload["repository"]["id"]. -/
def getRepoId (p : Payload) : Except GHError Nat :=
  match p.repository with
  | none => .error (.keyError "repository")
  | some ro =>
    match ro.id with
    | none => .error (.keyError "id")
    | some i => .ok i

/-- Python subscript lookup event.payload["repository"]["name"]. -/
def getRepoName (p : Payload) : Except GHError String :=
  match p.repository with
  | none => .error (.keyError "repository")
  | some ro =>
    match ro.name with
    | none => .error (.keyError "name")
    | some n => .ok n

/-- Python subscript lookup event.payload["release"]["tag_name"]. -/
def getTagName (p : Payload) : Except GHError String :=
  match p.release with
  | none => .error (.keyError "release")
  | some r =>
    match r.tag_name with
    | none => .error (.keyError "tag_name")
    | some t => .ok t

/-- Modelled from the spec: the store point lookup
Release.query.filter_by(release_id=release_id).first() — the models layer
is not part of the sources; the spec describes it as
findByReleaseId(id) -> Release | None over a store keyed by releaseId. -/
def findByReleaseId (store : List ReleaseRecord) (rid : Nat) : Option ReleaseRecord :=
  store.find? (fun r => r.release_id == rid)

/-- Modelled from the spec: Repository.get(repo_id, repo_name) — the models
layer is not part of the sources; the spec describes the registry as
lookup(repoId, repoName) -> Repository | NotFound, a read-only lookup by
external id and name. -/
def repositoryGet (repos : List Repository) (rid : Nat) (rname : String) :
    Option Repository :=
  repos.find? (fun r => r.id == rid && r.name == rname)

/-- Modelled from the spec: db.session.commit() — the storage engine is not
part of the sources; the spec describes commit() as durably persisting all
staged changes atomically, raising a uniqueness-constraint violation
(`SQLAlchemyError`) when a concurrent transaction raced past the duplicate
check; the race is injected through `commitRaces`, and a staged record
whose id is already committed also violates uniqueness.  A failed commit
rolls the staged changes back and leaves the store unchanged. -/
def sessionCommit (w : World) : Except GHError Unit × World :=
  if w.commitRaces || w.staged.any (fun r => (findByReleaseId w.store r.release_id).isSome) then
    (.error .sqlAlchemyError, { w with staged := [] })
  else
    (.ok (), { w with store := w.store ++ w.staged, staged := [],
                      actions := w.actions ++ [.commit] })

/-- Modelled from the spec: str(e) for the error classes of
invenio_github.errors, which is not part of the sources; only used as the
message text of the response written onto the event. -/
def errMessage : GHError → String
  | .releaseAlreadyReceived => "The release has already been received."
  | .repositoryDisabled => "This repository is not enabled for webhooks."
  | .sqlAlchemyError => "(IntegrityError) duplicate key value violates unique constraint"
  | .repositoryAccess => "The user cannot access the repository."
  | .invalidSender => "Invalid sender for event."
  | .repositoryNotFound => "The repository does not exist."
  | .keyError k => k

/-- The inner helper _create_release of _handle_create_release
(receivers.py lines 88-119): duplicate check against the store, repository
resolution, enabled gate, then construction and staging of the release
record (db.session.add).  Store point lookups are counted in `queries`. -/
def createRelease (ev : Event) (w : World) : Except GHError ReleaseRecord × World :=
  match getReleaseId ev.payload with
  | .error e => (.error e, w)
  | .ok release_id =>
    let w1 : World := { w with queries := w.queries + 1 }
    match findByReleaseId w1.store release_id with
    | some _ => (.error .releaseAlreadyReceived, w1)
    | none =>
      match getRepoId ev.payload with
      | .error e => (.error e, w1)
      | .ok repo_id =>
        match getRepoName ev.payload with
        | .error e => (.error e, w1)
        | .ok repo_name =>
          match repositoryGet w1.repos repo_id repo_name with
          | none => (.error .repositoryNotFound, w1)
          | some repo =>
            if repo.enabled then
              match getTagName ev.payload with
              | .error e => (.error e, w1)
              | .ok tag =>
                let robj : ReleaseRecord :=
                  { release_id := release_id, tag := tag,
                    repository_id := repo.id, status := .RECEIVED }
                (.ok robj, { w1 with staged := w1.staged ++ [robj] })
            else
              (.error .repositoryDisabled, w1)

/-- The body of the try block of _handle_create_release (receivers.py
lines 121-144): fast-path duplicate rejection against the Admission Lock,
lock insertion, record creation, dispatch (async: commit then enqueue;
sync: in-line processing), and lock removal — which the source performs
only on this success path.  Mutations made before a raise persist in the
returned world. -/
def attemptAdmission (ev : Event) (w : World) : Except GHError Unit × World :=
  match getReleaseId ev.payload with
  | .error e => (.error e, w)
  | .ok event_release_id =>
    if event_release_id ∈ w.state then
      (.error .releaseAlreadyReceived, w)
    else
      let w1 : World := { w with state := w.state ++ [event_release_id] }
      match createRelease ev w1 with
      | (.error e, w2) => (.error e, w2)
      | (.ok release, w2) =>
        let async_mode := w2.asyncModeConfig.getD true
        if async_mode then
          match sessionCommit w2 with
          | (.error e, w3) => (.error e, w3)
          | (.ok _, w3) =>
            let w4 : World :=
              { w3 with enqueued := w3.enqueued ++ [release.release_id],
                        actions := w3.actions ++ [.enqueue release.release_id] }
            (.ok (), { w4 with state := w4.state.erase event_release_id })
        else
          let w3 : World := { w2 with actions := w2.actions ++ [.procSync release.release_id] }
          (.ok (), { w3 with state := w3.state.erase event_release_id })

/-- _handle_create_release (receivers.py lines 85-158): runs the admission
attempt and translates classified errors into 409/403/404 responses
written onto the event; an unclassified KeyError matches no except clause
and propagates to the caller (the Except.error result). -/
def handleCreateRelease (ev : Event) (w : World) :
    Except GHError Unit × Event × World :=
  match attemptAdmission ev w with
  | (.ok _, w1) => (.ok (), ev, w1)
  | (.error e, w1) =>
    match e with
    | .releaseAlreadyReceived =>
      (.ok (), { ev with response_code := some 409,
                         response := some { status := 409, message := errMessage e } }, w1)
    | .repositoryDisabled =>
      (.ok (), { ev with response_code := some 409,
                         response := some { status := 409, message := errMessage e } }, w1)
    | .sqlAlchemyError =>
      (.ok (), { ev with response_code := some 409,
                         response := some { status := 409, message := errMessage e } }, w1)
    | .repositoryAccess =>
      (.ok (), { ev with response_code := some 403,
                         response := some { status := 403, message := errMessage e } }, w1)
    | .invalidSender =>
      (.ok (), { ev with response_code := some 403,
                         response := some { status := 403, message := errMessage e } }, w1)
    | .repositoryNotFound =>
      (.ok (), { ev with response_code := some 404,
                         response := some { status := 404, message := errMessage e } }, w1)
    | .keyError k => (.error (.keyError k), ev, w1)

/-- Python truthiness of the extracted draft flag
event.payload.get("release", \x7b\x7d).get("draft"): `none` when the
release object or the draft key is absent. -/
def draftFlag (p : Payload) : Option Bool :=
  p.release.bind (fun r => r.draft)

/-- Python truthiness of an optional boolean: only `some true` is truthy. -/
def truthy : Option Bool → Bool
  | some true => true
  | _ => false

/-- The creation-event classification of _handle_event (receivers.py lines
71-77): action is one of "published", "released", "created" and the
extracted draft flag is falsy. -/
def isCreateReleaseEvent (ev : Event) : Bool :=
  (ev.payload.action == some "published" || ev.payload.action == some "released"
      || ev.payload.action == some "created")
    && !(truthy (draftFlag ev.payload))

/-- The classification predicate as the spec words it, for comparison with
the source's `isCreateReleaseEvent`: the action is one of "published",
"released", "created" and the extracted draft flag is falsy. -/
def specIsCreationEvent (ev : Event) : Prop :=
  (ev.payload.action = some "published" ∨ ev.payload.action = some "released"
      ∨ ev.payload.action = some "created")
    ∧ truthy (draftFlag ev.payload) = false

/-- _handle_event (receivers.py lines 69-83): a creation event goes to
_handle_create_release; every other event is discarded untouched. -/
def handleEvent (ev : Event) (w : World) : Except GHError Unit × Event × World :=
  if isCreateReleaseEvent ev then
    handleCreateRelease ev w
  else
    (.ok (), ev, w)

/-- run (receivers.py lines 51-67): invokes _handle_event; a propagated
exception is converted to a 500 response exactly when the event response is
still unset or the previously-set code is below 400.  (The Python guard
`not event.response or event.response_code < 400` is only ever evaluated on
events whose two response fields were set together, which the model
mirrors with getD.) -/
def run (ev : Event) (w : World) : Event × World :=
  match handleEvent ev w with
  | (.ok _, ev1, w1) => (ev1, w1)
  | (.error e, ev1, w1) =>
    if ev1.response.isNone || (ev1.response_code.getD 0) < 400 then
      ({ ev1 with response := some { status := 500, message := errMessage e },
                  response_code := some 500 }, w1)
    else
      (ev1, w1)

/-! Concrete fixtures used to evaluate the model on sample inputs. -/

/-- A registered, enabled repository with external id 7 and name "lib". -/
def repoLib : Repository := { id := 7, name := "lib", enabled := true }

/-- The same repository, disabled. -/
def repoLibOff : Repository := { id := 7, name := "lib", enabled := false }

/-- A creation event: action "published", release 42 tagged "v1.0" with no
draft key, repository 7/"lib"; response fields unset. -/
def evPub : Event :=
  { payload :=
      { action := some "published",
        release := some { id := some 42, tag_name := some "v1.0", draft := none },
        repository := some { id := some 7, name := some "lib" } },
    response := none, response_code := none }

/-- A ping event: action "ping", no release object. -/
def evPing : Event :=
  { payload := { action := some "ping", release := none, repository := none },
    response := none, response_code := none }

/-- A creation event whose payload lacks the release object entirely. -/
def evNoRelease : Event :=
  { payload :=
      { action := some "published", release := none,
        repository := some { id := some 7, name := some "lib" } },
    response := none, response_code := none }

/-- An empty world: no locks, no records, registry holding the enabled
repository 7/"lib", configuration unset (async defaulted), no races. -/
def wEmpty : World :=
  { state := [], store := [], staged := [], repos := [repoLib],
    asyncModeConfig := none, commitRaces := false,
    enqueued := [], queries := 0, actions := [] }

/-- The release record the admission of `evPub` commits. -/
def rec42 : ReleaseRecord :=
  { release_id := 42, tag := "v1.0", repository_id := 7, status := .RECEIVED }

/-- The world after `evPub` was already admitted and committed. -/
def wHas42 : World := { wEmpty with store := [rec42] }

/-! Frame lemmas about which parts of the world each operation can touch. -/

/-- The inner record creation touches only the query counter and the staged
session adds: store, lock, registry, configuration, dispatch state are
untouched. -/
theorem createRelease_frame (ev : Event) (w : World) :
    (createRelease ev w).2.store = w.store ∧ (createRelease ev w).2.state = w.state
      ∧ (createRelease ev w).2.repos = w.repos
      ∧ (createRelease ev w).2.asyncModeConfig = w.asyncModeConfig
      ∧ (createRelease ev w).2.commitRaces = w.commitRaces
      ∧ (createRelease ev w).2.enqueued = w.enqueued
      ∧ (createRelease ev w).2.actions = w.actions := by
  unfold createRelease
  dsimp only
  repeat' split
  all_goals exact ⟨rfl, rfl, rfl, rfl, rfl, rfl, rfl⟩

/-- The record creation either fails and stages nothing, or succeeds and
stages exactly the new record, whose id is the payload's release id. -/
theorem createRelease_result (ev : Event) (w : World) :
    ((∃ e, (createRelease ev w).1 = .error e)
        ∧ (createRelease ev w).2.staged = w.staged)
      ∨ (∃ robj, (createRelease ev w).1 = .ok robj
        ∧ (createRelease ev w).2.staged = w.staged ++ [robj]
        ∧ getReleaseId ev.payload = .ok robj.release_id) := by
  unfold createRelease
  dsimp only
  repeat' split
  all_goals simp_all

/-- The session commit either fails with the storage uniqueness violation,
rolling the staged adds back, or appends them to the durable store and
records the commit action. -/
theorem sessionCommit_cases (w : World) :
    sessionCommit w = (.error .sqlAlchemyError, { w with staged := [] })
      ∨ sessionCommit w = (.ok (), { w with store := w.store ++ w.staged, staged := [],
                                            actions := w.actions ++ [.commit] }) := by
  unfold sessionCommit
  split
  · exact Or.inl rfl
  · exact Or.inr rfl

/-- The error translation of _handle_create_release does not touch the
world beyond what the admission attempt itself did. -/
theorem handleCreateRelease_world (ev : Event) (w : World) :
    (handleCreateRelease ev w).2.2 = (attemptAdmission ev w).2 := by
  unfold handleCreateRelease
  rcases h : attemptAdmission ev w with ⟨r, w1⟩
  cases r with
  | error e => cases e <;> rfl
  | ok u => rfl

/-- The world produced by _handle_event: untouched for a discarded event,
the admission attempt's world for a creation event. -/
theorem handleEvent_world (ev : Event) (w : World) :
    (handleEvent ev w).2.2 =
      if isCreateReleaseEvent ev then (attemptAdmission ev w).2 else w := by
  unfold handleEvent
  split
  · exact handleCreateRelease_world ev w
  · rfl

/-- run only writes a response onto the event; the world it returns is the
one produced by _handle_event. -/
theorem run_world (ev : Event) (w : World) :
    (run ev w).2 = (handleEvent ev w).2.2 := by
  unfold run
  rcases h : handleEvent ev w with ⟨r, ev1, w1⟩
  cases r with
  | error e =>
    dsimp only
    split <;> rfl
  | ok u => rfl

/-- On any failing path the admission attempt leaves the durable store
unchanged: only a successful commit extends it. -/
theorem attemptAdmission_error_store (ev : Event) (w : World) :
    (attemptAdmission ev w).2.store = w.store ∨ (attemptAdmission ev w).1 = .ok () := by
  cases hg : getReleaseId ev.payload with
  | error e => left; simp [attemptAdmission, hg]
  | ok rid =>
    by_cases hmem : rid ∈ w.state
    · left; simp [attemptAdmission, hg, hmem]
    · rcases hcr : createRelease ev { w with state := w.state ++ [rid] } with ⟨res, w2⟩
      have hfr := createRelease_frame ev { w with state := w.state ++ [rid] }
      rw [hcr] at hfr
      dsimp only at hfr
      obtain ⟨h2store, h2state, h2repos, h2cfg, h2races, h2enq, h2act⟩ := hfr
      cases res with
      | error e =>
        left
        simp [attemptAdmission, hg, hmem, hcr, h2store]
      | ok robj =>
        cases hac : w2.asyncModeConfig.getD true with
        | false =>
          right
          simp [attemptAdmission, hg, hmem, hcr, hac]
        | true =>
          rcases sessionCommit_cases w2 with hsc | hsc
          · left
            simp [attemptAdmission, hg, hmem, hcr, hac, hsc, h2store]
          · right
            simp [attemptAdmission, hg, hmem, hcr, hac, hsc]

/-- In asynchronous mode the admission attempt either performs no dispatch
step at all, or appends exactly a commit followed by the enqueue of the
admitted record's id, that record then being in the durable store. -/
theorem attemptAdmission_async_trace (ev : Event) (w : World)
    (hasync : w.asyncModeConfig.getD true = true) :
    ((attemptAdmission ev w).2.actions = w.actions
        ∧ (attemptAdmission ev w).2.enqueued = w.enqueued
        ∧ (attemptAdmission ev w).2.store = w.store)
      ∨ (∃ robj : ReleaseRecord,
          (attemptAdmission ev w).2.actions
              = w.actions ++ [Action.commit, Action.enqueue robj.release_id]
            ∧ (attemptAdmission ev w).2.enqueued = w.enqueued ++ [robj.release_id]
            ∧ robj ∈ (attemptAdmission ev w).2.store) := by
  cases hg : getReleaseId ev.payload with
  | error e => left; simp [attemptAdmission, hg]
  | ok rid =>
    by_cases hmem : rid ∈ w.state
    · left; simp [attemptAdmission, hg, hmem]
    · rcases hcr : createRelease ev { w with state := w.state ++ [rid] } with ⟨res, w2⟩
      have hfr := createRelease_frame ev { w with state := w.state ++ [rid] }
      rw [hcr] at hfr
      dsimp only at hfr
      obtain ⟨h2store, h2state, h2repos, h2cfg, h2races, h2enq, h2act⟩ := hfr
      cases res with
      | error e =>
        left
        simp [attemptAdmission, hg, hmem, hcr, h2store, h2enq, h2act]
      | ok robj =>
        have hac : w2.asyncModeConfig.getD true = true := by rw [h2cfg]; exact hasync
        have hres := createRelease_result ev { w with state := w.state ++ [rid] }
        rw [hcr] at hres
        dsimp only at hres
        rcases hres with ⟨⟨e1, he1⟩, _⟩ | ⟨robj2, hok, hstaged, hrid⟩
        · exact absurd he1 (by simp)
        · obtain rfl : robj2 = robj := by
            have := hok
            exact (Except.ok.inj this).symm
          rcases sessionCommit_cases w2 with hsc | hsc
          · left
            simp [attemptAdmission, hg, hmem, hcr, hac, hsc, h2store, h2enq, h2act]
          · right
            refine ⟨robj2, ?_, ?_, ?_⟩
            · simp [attemptAdmission, hg, hmem, hcr, hac, hsc, h2act]
            · simp [attemptAdmission, hg, hmem, hcr, hac, hsc, h2enq]
            · simp [attemptAdmission, hg, hmem, hcr, hac, hsc, h2store, hstaged]

/-- The event returned by _handle_create_release is either the input event
unchanged (admission success, or a propagating unclassified KeyError) or
the input event with exactly one classified response of code 403, 404 or
409 written onto it, the code mirrored in the response body. -/
theorem handleCreateRelease_shape (ev : Event) (w : World) :
    ((handleCreateRelease ev w).1 = .ok () ∧ (handleCreateRelease ev w).2.1 = ev)
      ∨ (∃ k, (handleCreateRelease ev w).1 = .error (.keyError k)
          ∧ (handleCreateRelease ev w).2.1 = ev)
      ∨ (∃ c m, c ∈ ([403, 404, 409] : List Nat) ∧ (handleCreateRelease ev w).1 = .ok ()
          ∧ (handleCreateRelease ev w).2.1 =
              { ev with response := some { status := c, message := m },
                        response_code := some c }) := by
  unfold handleCreateRelease
  rcases h : attemptAdmission ev w with ⟨r, w1⟩
  cases r with
  | ok u => exact Or.inl ⟨rfl, rfl⟩
  | error e =>
    cases e with
    | releaseAlreadyReceived =>
      exact Or.inr (Or.inr ⟨409, errMessage .releaseAlreadyReceived, by simp, rfl, rfl⟩)
    | repositoryDisabled =>
      exact Or.inr (Or.inr ⟨409, errMessage .repositoryDisabled, by simp, rfl, rfl⟩)
    | sqlAlchemyError =>
      exact Or.inr (Or.inr ⟨409, errMessage .sqlAlchemyError, by simp, rfl, rfl⟩)
    | repositoryAccess =>
      exact Or.inr (Or.inr ⟨403, errMessage .repositoryAccess, by simp, rfl, rfl⟩)
    | invalidSender =>
      exact Or.inr (Or.inr ⟨403, errMessage .invalidSender, by simp, rfl, rfl⟩)
    | repositoryNotFound =>
      exact Or.inr (Or.inr ⟨404, errMessage .repositoryNotFound, by simp, rfl, rfl⟩)
    | keyError k =>
      exact Or.inr (Or.inl ⟨k, rfl, rfl⟩)

/-- C3: an inbound event triggers the release-creation path iff its action
is one of "published", "released", "created" and its draft flag is falsy;
every other event is discarded: run returns the event and the world
unchanged — no response written, no lock entry inserted, no record
created. -/
theorem C3_classification (ev : Event) (w : World) :
    (specIsCreationEvent ev ↔ isCreateReleaseEvent ev = true)
      ∧ (¬ specIsCreationEvent ev →
          run ev w = (ev, w) ∧ handleEvent ev w = (.ok (), ev, w))
      ∧ (specIsCreationEvent ev → handleEvent ev w = handleCreateRelease ev w) := by
  have hiff : specIsCreationEvent ev ↔ isCreateReleaseEvent ev = true := by
    unfold specIsCreationEvent isCreateReleaseEvent
    simp only [Bool.and_eq_true, Bool.or_eq_true, Bool.not_eq_true', beq_iff_eq]
    constructor
    · rintro ⟨h1, h2⟩; exact ⟨by tauto, h2⟩
    · rintro ⟨h1, h2⟩; exact ⟨by tauto, h2⟩
  refine ⟨hiff, ?_, ?_⟩
  · intro hn
    have hb : isCreateReleaseEvent ev = false := by
      rcases Bool.eq_false_or_eq_true (isCreateReleaseEvent ev) with h | h
      · exact absurd (hiff.mpr h) hn
      · exact h
    have he : handleEvent ev w = (.ok (), ev, w) := by
      simp [handleEvent, hb]
    exact ⟨by simp [run, he], he⟩
  · intro hy
    simp [handleEvent, hiff.mp hy]

/-- C3 witness: a ping event is no creation event, and run discards it
leaving the event and the world untouched. -/
theorem C3_classification_witness :
    ¬ specIsCreationEvent evPing ∧ run evPing wEmpty = (evPing, wEmpty) := by
  have hn : ¬ specIsCreationEvent evPing := by
    intro h
    rcases h.1 with h1 | h1 | h1 <;> simp [evPing] at h1
  exact ⟨hn, ((C3_classification evPing wEmpty).2.1 hn).1⟩

/-- C10: an absent draft flag is treated as non-draft — when the action is
"published", "released" or "created" and the payload has no release object
or no draft key, the event is classified as a creation event and the
release-creation path is invoked. -/
theorem C10_absent_draft_is_falsy (ev : Event) (w : World)
    (hact : ev.payload.action = some "published"
      ∨ ev.payload.action = some "released" ∨ ev.payload.action = some "created")
    (hdraft : ev.payload.release = none
      ∨ ∃ ri, ev.payload.release = some ri ∧ ri.draft = none) :
    isCreateReleaseEvent ev = true ∧ handleEvent ev w = handleCreateRelease ev w := by
  have hflag : draftFlag ev.payload = none := by
    rcases hdraft with h | ⟨ri, h, hd⟩
    · simp [draftFlag, h]
    · simp [draftFlag, h, hd]
  have hc : isCreateReleaseEvent ev = true := by
    unfold isCreateReleaseEvent
    rcases hact with h | h | h <;> simp [h, hflag, truthy]
  exact ⟨hc, by simp [handleEvent, hc]⟩

/-- C10 witness: the sample published event carries no draft key and is
classified as a creation event. -/
theorem C10_absent_draft_is_falsy_witness :
    isCreateReleaseEvent evPub = true
      ∧ handleEvent evPub wEmpty = handleCreateRelease evPub wEmpty := by
  exact C10_absent_draft_is_falsy evPub wEmpty (Or.inl rfl)
    (Or.inr ⟨{ id := some 42, tag_name := some "v1.0", draft := none }, rfl, rfl⟩)

/-- C9: a creation event whose payload lacks the release object or its id
raises an unclassified KeyError before the Admission Lock is touched: the
event receives response code 500 and the whole world — lock, store,
staged session — is returned unchanged. -/
theorem C9_missing_release_id (ev : Event) (w : World)
    (hcreate : isCreateReleaseEvent ev = true)
    (hresp : ev.response = none)
    (hmiss : ev.payload.release = none
      ∨ ∃ ri, ev.payload.release = some ri ∧ ri.id = none) :
    (run ev w).1.response_code = some 500 ∧ (run ev w).2 = w := by
  obtain ⟨k, hk⟩ : ∃ k, getReleaseId ev.payload = .error (.keyError k) := by
    rcases hmiss with h | ⟨ri, h, hid⟩
    · exact ⟨"release", by simp [getReleaseId, h]⟩
    · exact ⟨"id", by simp [getReleaseId, h, hid]⟩
  have hA : attemptAdmission ev w = (.error (.keyError k), w) := by
    simp [attemptAdmission, hk]
  have hH : handleCreateRelease ev w = (.error (.keyError k), ev, w) := by
    simp [handleCreateRelease, hA]
  have hE : handleEvent ev w = (.error (.keyError k), ev, w) := by
    simp [handleEvent, hcreate, hH]
  constructor
  · simp [run, hE, hresp]
  · simp [run, hE, hresp]

/-- C9 witness: a published event without a release object gets a 500
response and leaves the world untouched. -/
theorem C9_missing_release_id_witness :
    (run evNoRelease wEmpty).1.response_code = some 500
      ∧ (run evNoRelease wEmpty).2 = wEmpty := by
  exact C9_missing_release_id evNoRelease wEmpty (by decide) rfl (Or.inl rfl)

/-- C4: run never propagates — it returns a pair on every input — and when
the handler raises, it writes response code 500 with the error's message
exactly when the response is still unset or the previously-set code is
below 400, leaving a previously-set code of 400 or more unchanged; when
the handler returns normally, run passes its result through. -/
theorem C4_run_error_translation (ev : Event) (w : World) :
    (∀ u ev2 w2, handleEvent ev w = (.ok u, ev2, w2) → run ev w = (ev2, w2))
      ∧ (∀ e ev2 w2, handleEvent ev w = (.error e, ev2, w2) →
          (ev2.response = none → run ev w =
            ({ ev2 with response := some { status := 500, message := errMessage e },
                        response_code := some 500 }, w2))
          ∧ (∀ r c, ev2.response = some r → ev2.response_code = some c → c < 400 →
              run ev w =
                ({ ev2 with response := some { status := 500, message := errMessage e },
                            response_code := some 500 }, w2))
          ∧ (∀ r c, ev2.response = some r → ev2.response_code = some c → 400 ≤ c →
              run ev w = (ev2, w2))) := by
  constructor
  · intro u ev2 w2 h
    cases u
    simp [run, h]
  · intro e ev2 w2 h
    refine ⟨?_, ?_, ?_⟩
    · intro hr
      simp [run, h, hr]
    · intro r c hr hc hlt
      simp [run, h, hr, hc, hlt]
    · intro r c hr hc hge
      have hnlt : ¬ (c < 400) := not_lt.mpr hge
      simp [run, h, hr, hc, hnlt]

/-- C4 witness: on the missing-release event the handler propagates a
KeyError and run translates it into a 500 response. -/
theorem C4_run_error_translation_witness :
    run evNoRelease wEmpty =
      ({ evNoRelease with
          response := some { status := 500, message := errMessage (.keyError "release") },
          response_code := some 500 }, wEmpty) := by
  exact ((C4_run_error_translation evNoRelease wEmpty).2
    (.keyError "release") evNoRelease wEmpty rfl).1 rfl

/-- C8: a creation event whose repository id/name matches no registered
repository fails with response code 404 and neither creates nor stages a
release record. -/
theorem C8_repository_not_found (ev : Event) (w : World) (rid pid : Nat) (pname : String)
    (hcreate : isCreateReleaseEvent ev = true)
    (h1 : getReleaseId ev.payload = .ok rid)
    (h2 : rid ∉ w.state)
    (h3 : findByReleaseId w.store rid = none)
    (h4 : getRepoId ev.payload = .ok pid)
    (h5 : getRepoName ev.payload = .ok pname)
    (h6 : repositoryGet w.repos pid pname = none) :
    (run ev w).1.response_code = some 404
      ∧ (run ev w).1.response
          = some { status := 404, message := errMessage .repositoryNotFound }
      ∧ (run ev w).2.store = w.store ∧ (run ev w).2.staged = w.staged := by
  have hcrel : createRelease ev { w with state := w.state ++ [rid] }
      = (.error .repositoryNotFound,
          { w with state := w.state ++ [rid], queries := w.queries + 1 }) := by
    simp [createRelease, h1, h3, h4, h5, h6]
  have hA : attemptAdmission ev w
      = (.error .repositoryNotFound,
          { w with state := w.state ++ [rid], queries := w.queries + 1 }) := by
    simp [attemptAdmission, h1, h2, hcrel]
  have hrun : run ev w
      = ({ ev with response_code := some 404,
                   response := some { status := 404, message := errMessage .repositoryNotFound } },
          { w with state := w.state ++ [rid], queries := w.queries + 1 }) := by
    simp [run, handleEvent, hcreate, handleCreateRelease, hA]
  rw [hrun]
  exact ⟨rfl, rfl, rfl, rfl⟩

/-- C8 witness: the published event against an empty registry gets a 404
and the store and session stay empty. -/
theorem C8_repository_not_found_witness :
    (run evPub { wEmpty with repos := [] }).1.response_code = some 404
      ∧ (run evPub { wEmpty with repos := [] }).1.response
          = some { status := 404, message := errMessage .repositoryNotFound }
      ∧ (run evPub { wEmpty with repos := [] }).2.store = []
      ∧ (run evPub { wEmpty with repos := [] }).2.staged = [] := by
  exact C8_repository_not_found evPub { wEmpty with repos := [] } 42 7 "lib"
    (by decide) rfl (by decide) rfl rfl rfl rfl

/-- C7: a creation event whose repository is registered but disabled fails
with response code 409 — not 403 — and neither creates nor stages a
release record. -/
theorem C7_repository_disabled (ev : Event) (w : World) (rid pid : Nat) (pname : String)
    (repo : Repository)
    (hcreate : isCreateReleaseEvent ev = true)
    (h1 : getReleaseId ev.payload = .ok rid)
    (h2 : rid ∉ w.state)
    (h3 : findByReleaseId w.store rid = none)
    (h4 : getRepoId ev.payload = .ok pid)
    (h5 : getRepoName ev.payload = .ok pname)
    (h6 : repositoryGet w.repos pid pname = some repo)
    (h7 : repo.enabled = false) :
    (run ev w).1.response_code = some 409
      ∧ (run ev w).1.response
          = some { status := 409, message := errMessage .repositoryDisabled }
      ∧ (run ev w).2.store = w.store ∧ (run ev w).2.staged = w.staged := by
  have hcrel : createRelease ev { w with state := w.state ++ [rid] }
      = (.error .repositoryDisabled,
          { w with state := w.state ++ [rid], queries := w.queries + 1 }) := by
    simp [createRelease, h1, h3, h4, h5, h6, h7]
  have hA : attemptAdmission ev w
      = (.error .repositoryDisabled,
          { w with state := w.state ++ [rid], queries := w.queries + 1 }) := by
    simp [attemptAdmission, h1, h2, hcrel]
  have hrun : run ev w
      = ({ ev with response_code := some 409,
                   response := some { status := 409, message := errMessage .repositoryDisabled } },
          { w with state := w.state ++ [rid], queries := w.queries + 1 }) := by
    simp [run, handleEvent, hcreate, handleCreateRelease, hA]
  rw [hrun]
  exact ⟨rfl, rfl, rfl, rfl⟩

/-- C7 witness: the published event against a registry holding only the
disabled repository gets a 409 and the store and session stay empty. -/
theorem C7_repository_disabled_witness :
    (run evPub { wEmpty with repos := [repoLibOff] }).1.response_code = some 409
      ∧ (run evPub { wEmpty with repos := [repoLibOff] }).1.response
          = some { status := 409, message := errMessage .repositoryDisabled }
      ∧ (run evPub { wEmpty with repos := [repoLibOff] }).2.store = []
      ∧ (run evPub { wEmpty with repos := [repoLibOff] }).2.staged = [] := by
  exact C7_repository_disabled evPub { wEmpty with repos := [repoLibOff] } 42 7 "lib"
    repoLibOff (by decide) rfl (by decide) rfl rfl rfl rfl rfl

/-- C2: each duplicate-detection trigger yields a 409 response and never
creates a second record: a releaseId already held in the Admission Lock
(no store query issued — the query counter is untouched), an existing
record found in the store, and a storage error raised during commit all
leave the store exactly as it was; in particular a re-delivery of an
already-committed id leaves exactly one record for that id. -/
theorem C2_duplicate_triggers_409 (ev : Event) (w : World) (rid : Nat)
    (hcreate : isCreateReleaseEvent ev = true)
    (hrid : getReleaseId ev.payload = .ok rid) :
    (rid ∈ w.state →
        (run ev w).1.response_code = some 409 ∧ (run ev w).2.store = w.store
          ∧ (run ev w).2.queries = w.queries)
      ∧ (rid ∉ w.state → (findByReleaseId w.store rid).isSome →
          (run ev w).1.response_code = some 409 ∧ (run ev w).2.store = w.store)
      ∧ ((attemptAdmission ev w).1 = .error .sqlAlchemyError →
          (run ev w).1.response_code = some 409 ∧ (run ev w).2.store = w.store)
      ∧ ((rid ∈ w.state ∨ (findByReleaseId w.store rid).isSome) →
          (w.store.countP fun r => r.release_id == rid) = 1 →
          ((run ev w).2.store.countP fun r => r.release_id == rid) = 1) := by
  have hlock : rid ∈ w.state →
      run ev w = ({ ev with response_code := some 409,
                            response := some { status := 409,
                                               message := errMessage .releaseAlreadyReceived } },
        w) := by
    intro hmem
    have hA : attemptAdmission ev w = (.error .releaseAlreadyReceived, w) := by
      simp [attemptAdmission, hrid, hmem]
    simp [run, handleEvent, hcreate, handleCreateRelease, hA]
  have hdup : rid ∉ w.state → (findByReleaseId w.store rid).isSome →
      run ev w = ({ ev with response_code := some 409,
                            response := some { status := 409,
                                               message := errMessage .releaseAlreadyReceived } },
        { w with state := w.state ++ [rid], queries := w.queries + 1 }) := by
    intro hmem hsome
    obtain ⟨r0, hr0⟩ := Option.isSome_iff_exists.mp hsome
    have hcrel : createRelease ev { w with state := w.state ++ [rid] }
        = (.error .releaseAlreadyReceived,
            { w with state := w.state ++ [rid], queries := w.queries + 1 }) := by
      simp [createRelease, hrid, hr0]
    have hA : attemptAdmission ev w
        = (.error .releaseAlreadyReceived,
            { w with state := w.state ++ [rid], queries := w.queries + 1 }) := by
      simp [attemptAdmission, hrid, hmem, hcrel]
    simp [run, handleEvent, hcreate, handleCreateRelease, hA]
  refine ⟨?_, ?_, ?_, ?_⟩
  · intro hmem
    rw [hlock hmem]
    exact ⟨rfl, rfl, rfl⟩
  · intro hmem hsome
    rw [hdup hmem hsome]
    exact ⟨rfl, rfl⟩
  · intro herr
    have hstore : (attemptAdmission ev w).2.store = w.store := by
      rcases attemptAdmission_error_store ev w with h | h
      · exact h
      · rw [herr] at h
        cases h
    rcases hA : attemptAdmission ev w with ⟨res, w2⟩
    rw [hA] at herr hstore
    dsimp only at herr hstore
    subst herr
    constructor
    · simp [run, handleEvent, hcreate, handleCreateRelease, hA]
    · have hw2 : (run ev w).2 = w2 := by
        rw [run_world, handleEvent_world, if_pos hcreate, hA]
      rw [hw2]
      exact hstore
  · intro htrig hcount
    rcases htrig with hmem | hsome
    · rw [hlock hmem]
      exact hcount
    · by_cases hmem : rid ∈ w.state
      · rw [hlock hmem]
        exact hcount
      · rw [hdup hmem hsome]
        exact hcount

/-- C2 witness: re-delivery of the already-committed release 42 yields a
409 and the store still holds exactly one record for id 42. -/
theorem C2_duplicate_triggers_409_witness :
    (run evPub wHas42).1.response_code = some 409
      ∧ (run evPub wHas42).2.store = [rec42]
      ∧ ((run evPub wHas42).2.store.countP fun r => r.release_id == 42) = 1 := by
  have h := C2_duplicate_triggers_409 evPub wHas42 42 (by decide) rfl
  refine ⟨(h.2.1 (by decide) (by decide)).1, (h.2.1 (by decide) (by decide)).2, ?_⟩
  exact h.2.2.2 (Or.inr (by decide)) (by decide)

/-- C6: in asynchronous mode (GITHUB_ASYNC_MODE unset — defaulting to
true — or set to true) a successful admission appends exactly a commit
followed by the enqueue of the admitted id, in that order, and every id
ever handed to the asynchronous channel is already durably recorded in
the store. -/
theorem C6_commit_precedes_enqueue (ev : Event) (w : World)
    (hasync : w.asyncModeConfig.getD true = true) :
    ((run ev w).2.actions = w.actions
        ∨ ∃ rid, (run ev w).2.actions = w.actions ++ [Action.commit, Action.enqueue rid])
      ∧ (∀ i, i ∈ (run ev w).2.enqueued →
          i ∈ w.enqueued ∨ ∃ r, r ∈ (run ev w).2.store ∧ r.release_id = i) := by
  have hw : (run ev w).2 = if isCreateReleaseEvent ev then (attemptAdmission ev w).2 else w := by
    rw [run_world, handleEvent_world]
  by_cases hc : isCreateReleaseEvent ev = true
  · rw [hw, if_pos hc]
    rcases attemptAdmission_async_trace ev w hasync with ⟨ha, he, hs⟩ | ⟨robj, ha, he, hs⟩
    · refine ⟨Or.inl ha, ?_⟩
      intro i hi
      rw [he] at hi
      exact Or.inl hi
    · refine ⟨Or.inr ⟨robj.release_id, ha⟩, ?_⟩
      intro i hi
      rw [he] at hi
      rcases List.mem_append.mp hi with h | h
      · exact Or.inl h
      · right
        obtain rfl : i = robj.release_id := List.mem_singleton.mp h
        exact ⟨robj, hs, rfl⟩
  · rw [hw, if_neg hc]
    exact ⟨Or.inl rfl, fun i hi => Or.inl hi⟩

/-- C6 witness: admitting the sample published event in the default
configuration commits and then enqueues id 42, and 42 is in the store. -/
theorem C6_commit_precedes_enqueue_witness :
    wEmpty.asyncModeConfig.getD true = true
      ∧ (((run evPub wEmpty).2.actions = wEmpty.actions
          ∨ ∃ rid, (run evPub wEmpty).2.actions
              = wEmpty.actions ++ [Action.commit, Action.enqueue rid])
        ∧ (∀ i, i ∈ (run evPub wEmpty).2.enqueued →
            i ∈ wEmpty.enqueued
              ∨ ∃ r, r ∈ (run evPub wEmpty).2.store ∧ r.release_id = i)) :=
  ⟨rfl, C6_commit_precedes_enqueue evPub wEmpty rfl⟩

/-- C5 counterexample: the claim says exactly one terminal response is
written per inbound event, including successfully admitted creation
events; evaluating the code on a successful admission (the store gains the
record, 42 is enqueued) shows the response slot is left unset — no
response at all is written on that path. -/
theorem C5_counterexample :
    (run evPub wEmpty).1.response = none
      ∧ (run evPub wEmpty).1.response_code = none
      ∧ (run evPub wEmpty).2.store = [rec42]
      ∧ (run evPub wEmpty).2.enqueued = [42] := by
  decide

/-- C5 amended: at most one terminal response is written per event — a
failing creation event gets exactly one response, with mirrored code and
status drawn from 403, 404, 409 or 500, while successfully admitted and
discarded events leave the response slot unset. -/
theorem C5_at_most_one_response (ev : Event) (w : World)
    (hr : ev.response = none) (hc : ev.response_code = none) :
    ((run ev w).1.response = none ∧ (run ev w).1.response_code = none)
      ∨ (∃ c m, c ∈ ([403, 404, 409, 500] : List Nat)
          ∧ (run ev w).1.response = some { status := c, message := m }
          ∧ (run ev w).1.response_code = some c) := by
  by_cases hcr : isCreateReleaseEvent ev = true
  · have hE : handleEvent ev w = handleCreateRelease ev w := by
      simp [handleEvent, hcr]
    have hshape := handleCreateRelease_shape ev w
    rcases hH : handleCreateRelease ev w with ⟨r, ev1, w1⟩
    rw [hH] at hshape hE
    dsimp only at hshape
    rcases hshape with ⟨hok, hev⟩ | ⟨k, herr, hev⟩ | ⟨c, m, hcmem, hok, hev⟩
    · subst hok
      subst hev
      left
      simp [run, hE, hr, hc]
    · subst herr
      subst hev
      right
      refine ⟨500, errMessage (.keyError k), by simp, ?_, ?_⟩
      · simp [run, hE, hr]
      · simp [run, hE, hr]
    · subst hok
      subst hev
      right
      refine ⟨c, m, ?_, ?_, ?_⟩
      · simp only [List.mem_cons, List.mem_singleton] at hcmem ⊢
        tauto
      · simp [run, hE]
      · simp [run, hE]
  · have hE : handleEvent ev w = (.ok (), ev, w) := by
      simp [handleEvent, hcr]
    left
    refine ⟨?_, ?_⟩
    · simp [run, hE, hr]
    · simp [run, hE, hc]

/-- C5 amended witness: a failing creation event (unknown repository) gets
its single classified response. -/
theorem C5_at_most_one_response_witness :
    ((run evPub { wEmpty with repos := [] }).1.response = none
        ∧ (run evPub { wEmpty with repos := [] }).1.response_code = none)
      ∨ (∃ c m, c ∈ ([403, 404, 409, 500] : List Nat)
          ∧ (run evPub { wEmpty with repos := [] }).1.response
              = some { status := c, message := m }
          ∧ (run evPub { wEmpty with repos := [] }).1.response_code = some c) :=
  C5_at_most_one_response evPub { wEmpty with repos := [] } rfl rfl

/-- C1 (refuted by evaluation): re-delivering the already-committed
release 42 drives the handler down the duplicate-found failure path, and
after _handle_create_release returns the Admission Lock still holds the
entry for 42 — the source deletes the entry only on the success path, so
the lock is not released on failure exit paths as the claim states. -/
theorem C1_lock_leak_on_failure :
    (run evPub wHas42).1.response_code = some 409
      ∧ (run evPub wHas42).2.state = [42]
      ∧ (run evPub wHas42).2.store = [rec42] := by
  decide

end InvenioGithub
